import Mathlib

/-!
Verification of the domain-membership checker module
(src/src/validators/domain_checker.py).

The module wraps four operating-system calls:
  win32net.NetWkstaGetInfo(None, 102)      -- yields a dict with key langroup
  win32net.NetGetJoinInformation(None)     -- yields a pair (name, status code)
  win32api.GetComputerName()
  win32api.GetComputerNameEx(ComputerNameDnsFullyQualified)
Each call may raise an exception; the module catches every exception locally.
We embed the OS as a record of Option-valued results (none = the call raises),
the logger as a list of log entries emitted by an operation, and each method
of class DomainChecker as a function from the OS and the current object state
to its result, the new object state and the log it emits.
-/

namespace DomainCheckerPy

/-- One call made to the module logger, tagged with the call site in the
source and carrying the data interpolated into the message. -/
inductive LogEntry : Type
  | infoNetworkStatus (joinStatus : String) (name : String)
  | errorVerifyDomain
  | warnNetGetJoinInformation
  | warnMustRunIsDomainJoinedFirst
  | errorGetComputerName
  | errorGetFQDN
  deriving DecidableEq, Repr

/-- The four OS collaborators. A field holding none models the call raising
an exception; some v models the call returning v.  NetWkstaGetInfo success is
modelled by the langroup string the code extracts from the returned dict;
NetGetJoinInformation success by the returned pair (name, status code). -/
structure OS where
  netWkstaGetInfo : Option String
  netGetJoinInformation : Option (String × Int)
  getComputerName : Option String
  getComputerNameEx : Option String
  deriving DecidableEq, Repr

/-- The dict stored in self.domain_info by is_domain_joined. -/
structure DomainInfo where
  name : String
  is_domain : Bool
  join_type : String
  deriving DecidableEq, Repr

/-- Instance state of class DomainChecker: the single attribute
self.domain_info, set to None in the constructor. -/
structure DomainChecker where
  domain_info : Option DomainInfo
  deriving DecidableEq, Repr

/-- DomainChecker.__init__: self.domain_info = None. -/
def DomainChecker.init : DomainChecker := { domain_info := none }

/-- The dict status_map of _get_join_status, read through dict.get:
some label when the key is present, none otherwise. -/
def status_map (n : Int) : Option String :=
  if n = 0 then some "Unknown"
  else if n = 1 then some "Unjoined"
  else if n = 2 then some "Workgroup"
  else if n = 3 then some "Domain"
  else none

/-- DomainChecker._get_join_status: calls NetGetJoinInformation, maps the
second component of the returned pair through status_map with default
Unknown; on exception logs a warning and returns Unknown.  Result is the
returned string paired with the emitted log. -/
def get_join_status (os : OS) : String × List LogEntry :=
  match os.netGetJoinInformation with
  | some js => ((status_map js.2).getD "Unknown", [])
  | none => ("Unknown", [LogEntry.warnNetGetJoinInformation])

/-- DomainChecker.is_domain_joined: calls NetWkstaGetInfo, reads langroup,
calls _get_join_status, stores a fresh dict in self.domain_info and returns
its is_domain entry; on exception from NetWkstaGetInfo logs an error and
returns False leaving self.domain_info untouched.  Result is the returned
bool, the new object state and the emitted log. -/
def is_domain_joined (os : OS) (self : DomainChecker) :
    Bool × DomainChecker × List LogEntry :=
  match os.netWkstaGetInfo with
  | none => (false, self, [LogEntry.errorVerifyDomain])
  | some workgroup_or_domain =>
    let jsl := get_join_status os
    let join_status := jsl.1
    let info : DomainInfo :=
      { name := workgroup_or_domain
        is_domain := join_status == "Domain"
        join_type := join_status }
    (info.is_domain,
     { domain_info := some info },
     jsl.2 ++ [LogEntry.infoNetworkStatus join_status workgroup_or_domain])

/-- DomainChecker.get_domain_info: returns self.domain_info, logging a
warning when it is still None. -/
def get_domain_info (self : DomainChecker) :
    Option DomainInfo × DomainChecker × List LogEntry :=
  match self.domain_info with
  | none => (none, self, [LogEntry.warnMustRunIsDomainJoinedFirst])
  | some info => (some info, self, [])

/-- DomainChecker.get_computer_name: returns GetComputerName(), or on
exception logs an error and returns the sentinel UNKNOWN. -/
def get_computer_name (os : OS) (self : DomainChecker) :
    String × DomainChecker × List LogEntry :=
  match os.getComputerName with
  | some n => (n, self, [])
  | none => ("UNKNOWN", self, [LogEntry.errorGetComputerName])

/-- DomainChecker.get_full_computer_name: returns GetComputerNameEx(...),
or on exception logs an error and falls back to self.get_computer_name(). -/
def get_full_computer_name (os : OS) (self : DomainChecker) :
    String × DomainChecker × List LogEntry :=
  match os.getComputerNameEx with
  | some n => (n, self, [])
  | none =>
    let r := get_computer_name os self
    (r.1, r.2.1, LogEntry.errorGetFQDN :: r.2.2)

/-- The dict returned by the module-level helper check_domain_status. -/
structure DomainStatusResult where
  is_domain_joined : Bool
  computer_name : String
  full_name : String
  domain_info : Option DomainInfo
  deriving DecidableEq, Repr

/-- Module-level helper check_domain_status: builds a fresh DomainChecker,
calls is_domain_joined, then get_computer_name, get_full_computer_name and
get_domain_info on it, and packs the four results into a dict. -/
def check_domain_status (os : OS) : DomainStatusResult × List LogEntry :=
  let checker := DomainChecker.init
  let r1 := is_domain_joined os checker
  let r2 := get_computer_name os r1.2.1
  let r3 := get_full_computer_name os r2.2.1
  let r4 := get_domain_info r3.2.1
  ({ is_domain_joined := r1.1
     computer_name := r2.1
     full_name := r3.1
     domain_info := r4.1 },
   r1.2.2 ++ r2.2.2 ++ r3.2.2 ++ r4.2.2)

/-- Concrete OS where every call raises. -/
def osAllFail : OS :=
  { netWkstaGetInfo := none
    netGetJoinInformation := none
    getComputerName := none
    getComputerNameEx := none }

/-- Concrete OS for a domain-joined host: workstation info yields CORP,
join information yields status code 3, both name calls succeed. -/
def osCorp : OS :=
  { netWkstaGetInfo := some "CORP"
    netGetJoinInformation := some ("corp.example.com", 3)
    getComputerName := some "MIPC"
    getComputerNameEx := some "MIPC.corp.example.com" }

/-- Shared helper: get_domain_info returns exactly the stored record (None
included), in both branches of its match. -/
theorem get_domain_info_fst (st : DomainChecker) :
    (get_domain_info st).1 = st.domain_info := by
  cases h : st.domain_info <;> simp [get_domain_info, h]

/-- Shared helper: get_domain_info never changes the object state. -/
theorem get_domain_info_state (st : DomainChecker) :
    (get_domain_info st).2.1 = st := by
  cases h : st.domain_info <;> simp [get_domain_info, h]

/-- Shared helper: get_computer_name never changes the object state. -/
theorem get_computer_name_state (os : OS) (st : DomainChecker) :
    (get_computer_name os st).2.1 = st := by
  cases h : os.getComputerName <;> simp [get_computer_name, h]

/-- Shared helper: get_full_computer_name never changes the object state. -/
theorem get_full_computer_name_state (os : OS) (st : DomainChecker) :
    (get_full_computer_name os st).2.1 = st := by
  cases h : os.getComputerNameEx <;>
    simp [get_full_computer_name, h, get_computer_name_state]

/-- Shared helper: the domain_info entry of the dict built by
check_domain_status is the record stored by its single is_domain_joined
call, because the intervening name queries do not touch the state. -/
theorem check_domain_status_domain_info (os : OS) :
    (check_domain_status os).1.domain_info =
      (is_domain_joined os DomainChecker.init).2.1.domain_info := by
  simp [check_domain_status, get_domain_info_fst, get_computer_name_state,
    get_full_computer_name_state]

/-- Shared helper: the is_domain_joined entry of the dict built by
check_domain_status is the bool returned by its is_domain_joined call. -/
theorem check_domain_status_is_domain (os : OS) :
    (check_domain_status os).1.is_domain_joined =
      (is_domain_joined os DomainChecker.init).1 := by
  simp [check_domain_status]

/-- Claim C1: when the OS join-information call returns a pair whose status
code is n, _get_join_status returns exactly the label of the fixed table
(0 Unknown, 1 Unjoined, 2 Workgroup, 3 Domain) and Unknown for any other
integer. -/
theorem C1_join_status_table (os : OS) (nm : String) (n : Int)
    (h : os.netGetJoinInformation = some (nm, n)) :
    (get_join_status os).1 =
      if n = 0 then "Unknown"
      else if n = 1 then "Unjoined"
      else if n = 2 then "Workgroup"
      else if n = 3 then "Domain"
      else "Unknown" := by
  simp only [get_join_status, h, status_map]
  split_ifs <;> rfl

/-- Witness for C1 at the concrete input n = 3. -/
theorem C1_join_status_table_witness :
    (get_join_status osCorp).1 =
      if (3 : Int) = 0 then "Unknown"
      else if (3 : Int) = 1 then "Unjoined"
      else if (3 : Int) = 2 then "Workgroup"
      else if (3 : Int) = 3 then "Domain"
      else "Unknown" :=
  C1_join_status_table osCorp "corp.example.com" 3 rfl

/-- Claim C2: whenever is_domain_joined stores a record (that is, whenever
the workstation-info call succeeds), the stored record satisfies is_domain
true iff join_type equals Domain, and the bool returned to the caller
equals the record's is_domain field. -/
theorem C2_record_invariant (os : OS) (self : DomainChecker) (g : String)
    (h : os.netWkstaGetInfo = some g) :
    ∃ rec : DomainInfo,
      (is_domain_joined os self).2.1.domain_info = some rec ∧
      (rec.is_domain = true ↔ rec.join_type = "Domain") ∧
      (is_domain_joined os self).1 = rec.is_domain := by
  refine ⟨⟨g, (get_join_status os).1 == "Domain", (get_join_status os).1⟩,
    ?_, ?_, ?_⟩
  · simp [is_domain_joined, h]
  · simp
  · simp [is_domain_joined, h]

/-- Witness for C2 at a concrete domain-joined OS. -/
theorem C2_record_invariant_witness :
    ∃ rec : DomainInfo,
      (is_domain_joined osCorp DomainChecker.init).2.1.domain_info =
        some rec ∧
      (rec.is_domain = true ↔ rec.join_type = "Domain") ∧
      (is_domain_joined osCorp DomainChecker.init).1 = rec.is_domain :=
  C2_record_invariant osCorp DomainChecker.init "CORP" rfl

/-- Counterexample to claim C3: on a fresh checker, a call to
is_domain_joined in which the workstation-info OS call fails leaves the
stored record absent (None), contradicting the claim that every call -
successful or failed - leaves a record present. -/
theorem C3_counterexample :
    (is_domain_joined osAllFail DomainChecker.init).2.1.domain_info =
      none := rfl

/-- Amended claim C3: after a call to is_domain_joined the stored record is
present iff the workstation-info call succeeded in that call or a record
was already present before it; a call in which the workstation-info call
fails leaves the object state unchanged (so the record stays absent before
the first successful query). -/
theorem C3_amended_record_presence (os : OS) (self : DomainChecker) :
    ((is_domain_joined os self).2.1.domain_info ≠ none ↔
      (os.netWkstaGetInfo ≠ none ∨ self.domain_info ≠ none)) ∧
    (os.netWkstaGetInfo = none → (is_domain_joined os self).2.1 = self) := by
  cases h : os.netWkstaGetInfo with
  | none =>
    constructor
    · simp [is_domain_joined, h]
    · intro _
      simp [is_domain_joined, h]
  | some g =>
    constructor
    · simp [is_domain_joined, h]
    · intro hc
      cases hc

/-- Witness for the amended C3: a failed workstation-info call leaves the
fresh state unchanged. -/
theorem C3_amended_record_presence_witness :
    (is_domain_joined osAllFail DomainChecker.init).2.1 =
      DomainChecker.init :=
  (C3_amended_record_presence osAllFail DomainChecker.init).2 rfl

/-- Claim C4: if either OS call fails during is_domain_joined, the call
returns false and emits the corresponding failure log entry (it is a total
function, so no exception reaches the caller); the false it returns is the
same bool a genuine not-domain-joined host produces. -/
theorem C4_failure_returns_false (os : OS) (self : DomainChecker)
    (h : os.netWkstaGetInfo = none ∨ os.netGetJoinInformation = none) :
    (is_domain_joined os self).1 = false ∧
    (LogEntry.errorVerifyDomain ∈ (is_domain_joined os self).2.2 ∨
     LogEntry.warnNetGetJoinInformation ∈ (is_domain_joined os self).2.2) := by
  cases hw : os.netWkstaGetInfo with
  | none => simp [is_domain_joined, hw]
  | some g =>
    rcases h with h | h
    · rw [hw] at h
      cases h
    · constructor
      · simp [is_domain_joined, hw, get_join_status, h]
      · right
        simp [is_domain_joined, hw, get_join_status, h]

/-- Witness for C4 where both OS calls fail. -/
theorem C4_failure_returns_false_witness :
    (is_domain_joined osAllFail DomainChecker.init).1 = false ∧
    (LogEntry.errorVerifyDomain ∈
      (is_domain_joined osAllFail DomainChecker.init).2.2 ∨
     LogEntry.warnNetGetJoinInformation ∈
      (is_domain_joined osAllFail DomainChecker.init).2.2) :=
  C4_failure_returns_false osAllFail DomainChecker.init (Or.inl rfl)

/-- Claim C5: if the OS join-information call fails, _get_join_status
returns Unknown and its only logger call is the warning; being a total
function it raises nothing. -/
theorem C5_join_failure_unknown (os : OS)
    (h : os.netGetJoinInformation = none) :
    (get_join_status os).1 = "Unknown" ∧
    (get_join_status os).2 = [LogEntry.warnNetGetJoinInformation] := by
  simp [get_join_status, h]

/-- Witness for C5 at the all-failing OS. -/
theorem C5_join_failure_unknown_witness :
    (get_join_status osAllFail).1 = "Unknown" ∧
    (get_join_status osAllFail).2 = [LogEntry.warnNetGetJoinInformation] :=
  C5_join_failure_unknown osAllFail rfl

/-- Claim C6: get_domain_info on a fresh checker (before any query) returns
None - not a default record - and logs the warning; in general it returns
exactly the stored record, so after a query it returns what that query
stored. -/
theorem C6_get_domain_info_contract :
    (get_domain_info DomainChecker.init).1 = none ∧
    (get_domain_info DomainChecker.init).2.2 =
      [LogEntry.warnMustRunIsDomainJoinedFirst] ∧
    ∀ st : DomainChecker, (get_domain_info st).1 = st.domain_info :=
  ⟨rfl, rfl, get_domain_info_fst⟩

/-- Claim C7: if the OS FQDN call fails, get_full_computer_name returns
exactly what get_computer_name returns in the same state, including the
UNKNOWN sentinel when the short-name call also fails. -/
theorem C7_fqdn_fallback (os : OS) (self : DomainChecker)
    (h : os.getComputerNameEx = none) :
    (get_full_computer_name os self).1 = (get_computer_name os self).1 ∧
    (os.getComputerName = none →
      (get_full_computer_name os self).1 = "UNKNOWN") := by
  constructor
  · simp [get_full_computer_name, h]
  · intro hc
    simp [get_full_computer_name, get_computer_name, h, hc]

/-- Witness for C7 where both name calls fail. -/
theorem C7_fqdn_fallback_witness :
    (get_full_computer_name osAllFail DomainChecker.init).1 = "UNKNOWN" :=
  (C7_fqdn_fallback osAllFail DomainChecker.init rfl).2 rfl

/-- Claim C8: if the OS computer-name call fails, get_computer_name logs
the error and returns the sentinel UNKNOWN; being total, it raises
nothing. -/
theorem C8_computer_name_sentinel (os : OS) (self : DomainChecker)
    (h : os.getComputerName = none) :
    (get_computer_name os self).1 = "UNKNOWN" ∧
    (get_computer_name os self).2.2 = [LogEntry.errorGetComputerName] := by
  simp [get_computer_name, h]

/-- Witness for C8 at the all-failing OS. -/
theorem C8_computer_name_sentinel_witness :
    (get_computer_name osAllFail DomainChecker.init).1 = "UNKNOWN" ∧
    (get_computer_name osAllFail DomainChecker.init).2.2 =
      [LogEntry.errorGetComputerName] :=
  C8_computer_name_sentinel osAllFail DomainChecker.init rfl

/-- Claim C9: a successful is_domain_joined call stores a fresh record
built only from that call's OS results (the right-hand side does not
mention the prior state: full overwrite, never a merge); get_domain_info
returns exactly that record afterwards; and none of get_domain_info,
get_computer_name, get_full_computer_name changes the stored state. -/
theorem C9_overwrite_and_frame (os os2 : OS) (self : DomainChecker)
    (g : String) (h : os.netWkstaGetInfo = some g) :
    (is_domain_joined os self).2.1.domain_info =
      some { name := g
             is_domain := (get_join_status os).1 == "Domain"
             join_type := (get_join_status os).1 } ∧
    (get_domain_info (is_domain_joined os self).2.1).1 =
      (is_domain_joined os self).2.1.domain_info ∧
    (∀ st : DomainChecker, (get_domain_info st).2.1 = st) ∧
    (∀ st : DomainChecker, (get_computer_name os2 st).2.1 = st) ∧
    (∀ st : DomainChecker, (get_full_computer_name os2 st).2.1 = st) := by
  refine ⟨?_, get_domain_info_fst _, get_domain_info_state,
    get_computer_name_state os2, get_full_computer_name_state os2⟩
  simp [is_domain_joined, h]

/-- Witness for C9 at the concrete domain-joined OS. -/
theorem C9_overwrite_and_frame_witness :
    (is_domain_joined osCorp DomainChecker.init).2.1.domain_info =
      some { name := "CORP"
             is_domain := (get_join_status osCorp).1 == "Domain"
             join_type := (get_join_status osCorp).1 } :=
  (C9_overwrite_and_frame osCorp osAllFail DomainChecker.init "CORP" rfl).1

/-- Claim C10: in the dict built by check_domain_status, whenever the
domain_info entry is not None its is_domain field equals the
is_domain_joined entry, and the domain_info entry is None exactly when the
workstation-info OS call failed during the helper's single query. -/
theorem C10_helper_dict_consistent (os : OS) :
    (∀ rec : DomainInfo,
      (check_domain_status os).1.domain_info = some rec →
      (check_domain_status os).1.is_domain_joined = rec.is_domain) ∧
    ((check_domain_status os).1.domain_info = none ↔
      os.netWkstaGetInfo = none) := by
  rw [check_domain_status_domain_info, check_domain_status_is_domain]
  cases hw : os.netWkstaGetInfo with
  | none =>
    constructor
    · intro rec hrec
      simp [is_domain_joined, hw, DomainChecker.init] at hrec
    · simp [is_domain_joined, hw, DomainChecker.init]
  | some g =>
    constructor
    · intro rec hrec
      simp only [is_domain_joined, hw, Option.some.injEq] at hrec ⊢
      rw [← hrec]
    · simp [is_domain_joined, hw]

/-- Witness for C10 at the concrete domain-joined OS. -/
theorem C10_helper_dict_consistent_witness :
    (check_domain_status osCorp).1.is_domain_joined =
      (DomainInfo.mk "CORP" true "Domain").is_domain :=
  (C10_helper_dict_consistent osCorp).1 (DomainInfo.mk "CORP" true "Domain")
    (by decide)

end DomainCheckerPy
